import Mathlib

/-!
Shallow embedding of the parameter model of `src/A_flow-meter/A_flow-meter.py`
(the `FlowValve` class, its module-level default constants, and the two
dialog handlers' display computations).  Python floats are modelled as real
numbers; `math.cos`, `math.pi` and `math.radians` become `Real.cos`,
`Real.pi` and an explicit `radians` function.  The mutating methods of the
class become state-transformer functions `FlowValve → FlowValve`, and the
set of objects producible by the class (construct, then any finite sequence
of property assignments) is captured by the inductive predicate `Reachable`.
-/

/-- State of a `FlowValve` object: one field per instance attribute set in
`FlowValve.__init__` (`_H`, `_RH`, `_theta`, `_D`, `_L`, `_WT`, `_d`, `_P`).
The Python `@property` getters return these fields unchanged, so field
access is the getter. -/
structure FlowValve where
  H : ℝ
  RH : ℝ
  theta : ℝ
  D : ℝ
  L : ℝ
  WT : ℝ
  d : ℝ
  P : ℝ

/-- Module-level `defaultHoles = 6`. -/
def defaultHoles : ℝ := 6

/-- Module-level `defaultRH = 3`. -/
def defaultRH : ℝ := 3

/-- Module-level `defaultLength = 100`. -/
def defaultLength : ℝ := 100

/-- Python's `math.radians(x)`: degrees to radians. -/
noncomputable def radians (x : ℝ) : ℝ := x * Real.pi / 180

/-- Module-level `defaultTheta = radians(70)`. -/
noncomputable def defaultTheta : ℝ := radians 70

/-- Module-level `defaultD = 40`. -/
def defaultD : ℝ := 40

/-- Method `calculate_P`: `self._P = self._D / cos(pi/2 - self._theta)`.
Modelled as the state after the mutation (the method also returns the new
`_P`, which is the `P` field of the result). -/
noncomputable def calculate_P (v : FlowValve) : FlowValve :=
  { v with P := v.D / Real.cos (Real.pi / 2 - v.theta) }

/-- Method `calculate_WT`: `self._WT = self._D/2 - (self.D/2 - self.D/10)`. -/
noncomputable def calculate_WT (v : FlowValve) : FlowValve :=
  { v with WT := v.D / 2 - (v.D / 2 - v.D / 10) }

/-- Constructor `FlowValve.__init__`: assigns the five defaults, `_d = 15`,
then `_WT = self.calculate_WT()` and `_P = self.calculate_P()`.  The `WT`
and `P` fields start from placeholder `0` (they do not exist yet in Python
at that point and are read by neither `calculate_WT` nor `calculate_P`)
and are then overwritten exactly as in the source. -/
noncomputable def FlowValve.init : FlowValve :=
  calculate_P (calculate_WT
    { H := defaultHoles, RH := defaultRH, theta := defaultTheta,
      D := defaultD, L := defaultLength, WT := 0, d := 15, P := 0 })

/-- Property setter `H`: `self._H = value` (no validation). -/
def setH (x : ℝ) (v : FlowValve) : FlowValve := { v with H := x }

/-- Property setter `RH`: `self._RH = value` (no validation). -/
def setRH (x : ℝ) (v : FlowValve) : FlowValve := { v with RH := x }

/-- Property setter `L`: `self._L = value` (no validation). -/
def setL (x : ℝ) (v : FlowValve) : FlowValve := { v with L := x }

/-- Property setter `theta`: `self._theta = value; self.calculate_P()`. -/
noncomputable def setTheta (x : ℝ) (v : FlowValve) : FlowValve :=
  calculate_P { v with theta := x }

/-- Property setter `D`: `self._D = value; self.calculate_P()`.  Note the
source does not call `calculate_WT` here. -/
noncomputable def setD (x : ℝ) (v : FlowValve) : FlowValve :=
  calculate_P { v with D := x }

/-- One property assignment on a `FlowValve` object, through any of the
five writable properties. -/
inductive Step : FlowValve → FlowValve → Prop
  | h (x : ℝ) (v : FlowValve) : Step v (setH x v)
  | rh (x : ℝ) (v : FlowValve) : Step v (setRH x v)
  | l (x : ℝ) (v : FlowValve) : Step v (setL x v)
  | theta (x : ℝ) (v : FlowValve) : Step v (setTheta x v)
  | d (x : ℝ) (v : FlowValve) : Step v (setD x v)

/-- States of a `FlowValve` object: freshly constructed, or any finite
sequence of property assignments after construction. -/
inductive Reachable : FlowValve → Prop
  | init : Reachable FlowValve.init
  | step {v w : FlowValve} : Reachable v → Step v w → Reachable w

/-- Python's built-in `round` to an integer: round-half-to-even
(banker's rounding).  At a tie (`fract x = 1/2`) the even neighbour is
chosen; elsewhere it agrees with rounding half away from zero upward,
which is Mathlib's `round` for the values arising here. -/
noncomputable def pyRoundInt (x : ℝ) : ℤ :=
  if Int.fract x = 1 / 2 then 2 * round (x / 2) else round x

/-- Python's `round(x, n)` for `n ≥ 0`: round `x·10^n` half-to-even, then
scale back. -/
noncomputable def pythonRound (x : ℝ) (n : ℕ) : ℝ :=
  (pyRoundInt (x * 10 ^ n) : ℝ) / 10 ^ n

/-- Execute handler, `P` branch (line 56):
`input.formattedText = f'~ \x7bround(flow_valve.P, 2)\x7d cm'` — the numeric
value displayed for the transducer distance. -/
noncomputable def execDisplayP (v : FlowValve) : ℝ := pythonRound v.P 2

/-- Execute handler, `WT` branch (line 58):
`input.formattedText = f'~ \x7bround(flow_valve.WT, 2)\x7d cm'` — the numeric
value displayed for the wall thickness.  Note: `ndigits = 2`. -/
noncomputable def execDisplayWT (v : FlowValve) : ℝ := pythonRound v.WT 2

/-- Created handler (line 133): `_initP = round(defaultD/cos(pi/2-defaultTheta), 2)`. -/
noncomputable def createdInitP : ℝ :=
  pythonRound (defaultD / Real.cos (Real.pi / 2 - defaultTheta)) 2

/-- Created handler (line 135): `_initWT = round(defaultD/2-(defaultD/2-defaultD/10))`
— `round` with no `ndigits`, i.e. rounding to 0 decimal places. -/
noncomputable def createdInitWT : ℝ :=
  pythonRound (defaultD / 2 - (defaultD / 2 - defaultD / 10)) 0

/-- Modelled from the spec (§6, claim C8): the `WT` display field is the
wall thickness "rounded to 0 decimal places".  Second definition for the
refinement comparison against `execDisplayWT`. -/
noncomputable def specDisplayWT (x : ℝ) : ℝ := pythonRound x 0

/-- Scenario state of spec §8 after `D := 40` then `theta := radians 70`
on a fresh `FlowValve`. -/
noncomputable def scenarioV2 : FlowValve := setTheta (radians 70) (setD 40 FlowValve.init)

/-- Scenario state of spec §8 after the further assignment `theta := radians 90`. -/
noncomputable def scenarioV3 : FlowValve := setTheta (radians 90) scenarioV2

/-! Helper lemmas: evaluating `pyRoundInt` away from ties, and pinning
down `cos (π/9)` (which is `cos (π/2 − defaultTheta)`) numerically via the
triple-angle identity. -/

lemma pyRoundInt_eq_of_lt_half (x : ℝ) (z : ℤ) (h1 : (z : ℝ) ≤ x) (h2 : x < z + 1 / 2) :
    pyRoundInt x = z := by
  have hfl : ⌊x⌋ = z := Int.floor_eq_iff.2 ⟨h1, by linarith⟩
  have hfr : Int.fract x ≠ 1 / 2 := by
    rw [Int.fract, hfl]
    intro h
    have : x = (z : ℝ) + 1 / 2 := by linarith
    linarith [h2, this]
  rw [pyRoundInt, if_neg hfr, round_eq]
  exact Int.floor_eq_iff.2 ⟨by linarith, by linarith⟩

lemma pyRoundInt_eq_of_gt_half (x : ℝ) (z : ℤ) (h1 : (z : ℝ) - 1 / 2 < x) (h2 : x ≤ z) :
    pyRoundInt x = z := by
  rcases eq_or_lt_of_le h2 with heq | hlt
  · subst heq
    rw [pyRoundInt, if_neg (by rw [Int.fract_intCast]; norm_num)]
    exact round_intCast z
  · have hfl : ⌊x⌋ = z - 1 := by
      apply Int.floor_eq_iff.2
      constructor
      · push_cast; linarith
      · push_cast; linarith
    have hfr : Int.fract x ≠ 1 / 2 := by
      rw [Int.fract, hfl]
      intro h
      have : x = (z : ℝ) - 1 / 2 := by push_cast at h ⊢; linarith
      linarith
    rw [pyRoundInt, if_neg hfr, round_eq]
    exact Int.floor_eq_iff.2 ⟨by linarith, by linarith⟩
lemma cos_pi_div_nine_cubic :
    4 * Real.cos (Real.pi / 9) ^ 3 - 3 * Real.cos (Real.pi / 9) = 1 / 2 := by
  have h := Real.cos_three_mul (Real.pi / 9)
  rw [show 3 * (Real.pi / 9) = Real.pi / 3 by ring, Real.cos_pi_div_three] at h
  linarith

lemma half_lt_cos_pi_div_nine : 1 / 2 < Real.cos (Real.pi / 9) := by
  have hpi := Real.pi_pos
  have h := Real.cos_lt_cos_of_nonneg_of_le_pi (x := Real.pi / 9) (y := Real.pi / 3)
    (by linarith) (by linarith) (by linarith)
  rw [Real.cos_pi_div_three] at h
  exact h

lemma cos_pi_div_nine_lt_one : Real.cos (Real.pi / 9) < 1 := by
  have hpi := Real.pi_pos
  have h := Real.cos_lt_cos_of_nonneg_of_le_pi (x := (0 : ℝ)) (y := Real.pi / 9)
    le_rfl (by linarith) (by linarith)
  rw [Real.cos_zero] at h
  exact h

lemma cos_pi_div_nine_bounds :
    9396926 / 10000000 < Real.cos (Real.pi / 9) ∧
      Real.cos (Real.pi / 9) < 9396927 / 10000000 := by
  have hc := cos_pi_div_nine_cubic
  have hhalf := half_lt_cos_pi_div_nine
  constructor
  · by_contra hle
    push_neg at hle
    have h1 : (0 : ℝ) ≤ 9396926 / 10000000 - Real.cos (Real.pi / 9) := by linarith
    nlinarith [hc, hhalf, h1, mul_nonneg h1 h1, mul_nonneg (mul_nonneg h1 h1) h1,
      mul_nonneg h1 (le_of_lt (lt_trans (by norm_num) hhalf))]
  · by_contra hle
    push_neg at hle
    have h1 : (0 : ℝ) ≤ Real.cos (Real.pi / 9) - 9396927 / 10000000 := by linarith
    nlinarith [hc, h1, mul_nonneg h1 h1, mul_nonneg (mul_nonneg h1 h1) h1]

lemma pi_div_two_sub_defaultTheta : Real.pi / 2 - defaultTheta = Real.pi / 9 := by
  rw [defaultTheta, radians]; ring

/-- Invariant of every reachable `FlowValve` state: the stored `P` always
equals `D / cos(π/2 − θ)` for the *current* `D` and `θ` (both setters and
the constructor recompute it), while `WT` keeps the value computed at
construction time from `defaultD` (the `D` setter never calls
`calculate_WT`), and `d` is the constant 15. -/
lemma reachable_inv {v : FlowValve} (hv : Reachable v) :
    v.P = v.D / Real.cos (Real.pi / 2 - v.theta) ∧ v.WT = 4 ∧ v.d = 15 := by
  induction hv with
  | init =>
      refine ⟨rfl, ?_, rfl⟩
      show defaultD / 2 - (defaultD / 2 - defaultD / 10) = 4
      norm_num [defaultD]
  | step _ hstep ih =>
      cases hstep with
      | h x v => exact ⟨ih.1, ih.2.1, ih.2.2⟩
      | rh x v => exact ⟨ih.1, ih.2.1, ih.2.2⟩
      | l x v => exact ⟨ih.1, ih.2.1, ih.2.2⟩
      | theta x v => exact ⟨rfl, ih.2.1, ih.2.2⟩
      | d x v => exact ⟨rfl, ih.2.1, ih.2.2⟩

lemma radians_seventy : Real.pi / 2 - radians 70 = Real.pi / 9 := by
  rw [radians]; ring

lemma radians_ninety : radians 90 = Real.pi / 2 := by
  rw [radians]; ring

lemma init_P_eq : FlowValve.init.P = 40 / Real.cos (Real.pi / 9) := by
  show (40 : ℝ) / Real.cos (Real.pi / 2 - defaultTheta) = 40 / Real.cos (Real.pi / 9)
  rw [pi_div_two_sub_defaultTheta]

lemma scenarioV2_P_eq : scenarioV2.P = 40 / Real.cos (Real.pi / 9) := by
  show (40 : ℝ) / Real.cos (Real.pi / 2 - radians 70) = 40 / Real.cos (Real.pi / 9)
  rw [radians_seventy]

lemma scenarioV3_P_eq : scenarioV3.P = 40 := by
  show (40 : ℝ) / Real.cos (Real.pi / 2 - radians 90) = 40
  rw [radians_ninety, show Real.pi / 2 - Real.pi / 2 = (0 : ℝ) by ring, Real.cos_zero,
    div_one]

lemma cos_pi_div_nine_pos : (0 : ℝ) < Real.cos (Real.pi / 9) :=
  lt_trans one_half_pos half_lt_cos_pi_div_nine

lemma forty_lt_forty_div_cos : (40 : ℝ) < 40 / Real.cos (Real.pi / 9) := by
  rw [lt_div_iff₀ cos_pi_div_nine_pos]
  nlinarith [cos_pi_div_nine_lt_one]

lemma pythonRound_initP : pythonRound FlowValve.init.P 2 = 4257 / 100 := by
  have hb := cos_pi_div_nine_bounds
  rw [init_P_eq, pythonRound,
    show (40 / Real.cos (Real.pi / 9)) * 10 ^ (2 : ℕ) = 4000 / Real.cos (Real.pi / 9) by
      ring]
  have hlow : (4257 : ℝ) - 1 / 2 < 4000 / Real.cos (Real.pi / 9) := by
    rw [lt_div_iff₀ cos_pi_div_nine_pos]; linarith [hb.2]
  have hhigh : 4000 / Real.cos (Real.pi / 9) ≤ (4257 : ℝ) := by
    rw [div_le_iff₀ cos_pi_div_nine_pos]; linarith [hb.1]
  rw [pyRoundInt_eq_of_gt_half _ 4257 (by push_cast; linarith) (by push_cast; linarith)]
  norm_num

/-- C1: for every reachable `FlowValve` whose `mainDiameter` `D` is positive
and whose angle `theta` satisfies `|cos(π/2 − theta)| > 1e-6`, reading the
transducer distance `P` returns exactly `D / cos(π/2 − theta)`, and this
value is strictly positive whenever `D > 0` and `0 < theta < π`. -/
theorem flowValve_C1_transducer_distance {v : FlowValve} (hv : Reachable v)
    (hD : 0 < v.D) (_hcos : 1 / 1000000 < |Real.cos (Real.pi / 2 - v.theta)|) :
    v.P = v.D / Real.cos (Real.pi / 2 - v.theta) ∧
      (0 < v.theta → v.theta < Real.pi → 0 < v.P) := by
  refine ⟨(reachable_inv hv).1, fun h0 hpi => ?_⟩
  rw [(reachable_inv hv).1, Real.cos_pi_div_two_sub]
  exact div_pos hD (Real.sin_pos_of_pos_of_lt_pi h0 hpi)

/-- Witness for C1 at the concrete reachable state `theta := π/2` after
construction: there `D = 40 > 0`, `cos(π/2 − θ) = 1` and `P = 40 > 0`. -/
theorem flowValve_C1_witness :
    Reachable (setTheta (Real.pi / 2) FlowValve.init) ∧
      0 < (setTheta (Real.pi / 2) FlowValve.init).D ∧
      1 / 1000000 <
        |Real.cos (Real.pi / 2 - (setTheta (Real.pi / 2) FlowValve.init).theta)| ∧
      ((setTheta (Real.pi / 2) FlowValve.init).P =
          (setTheta (Real.pi / 2) FlowValve.init).D /
            Real.cos (Real.pi / 2 - (setTheta (Real.pi / 2) FlowValve.init).theta) ∧
        (0 < (setTheta (Real.pi / 2) FlowValve.init).theta →
          (setTheta (Real.pi / 2) FlowValve.init).theta < Real.pi →
          0 < (setTheta (Real.pi / 2) FlowValve.init).P)) := by
  have hreach : Reachable (setTheta (Real.pi / 2) FlowValve.init) :=
    Reachable.step Reachable.init (Step.theta (Real.pi / 2) FlowValve.init)
  have hD : 0 < (setTheta (Real.pi / 2) FlowValve.init).D := by
    show (0 : ℝ) < 40
    norm_num
  have hcos :
      1 / 1000000 <
        |Real.cos (Real.pi / 2 - (setTheta (Real.pi / 2) FlowValve.init).theta)| := by
    show 1 / 1000000 < |Real.cos (Real.pi / 2 - Real.pi / 2)|
    rw [show Real.pi / 2 - Real.pi / 2 = (0 : ℝ) by ring, Real.cos_zero]
    norm_num
  exact ⟨hreach, hD, hcos, flowValve_C1_transducer_distance hreach hD hcos⟩

/-- C9: after any finite sequence of property assignments (in particular
through the `theta` and `D` setters), the stored transducer distance always
equals the current `D` divided by `cos(π/2 − current θ)`: both setters
eagerly recompute `P`, so `P` is never stale with respect to these two
inputs. -/
theorem flowValve_C9_invariant {v : FlowValve} (hv : Reachable v)
    (_hcos : Real.cos (Real.pi / 2 - v.theta) ≠ 0) :
    v.P = v.D / Real.cos (Real.pi / 2 - v.theta) :=
  (reachable_inv hv).1

/-- Witness for C9 at the concrete reachable state `D := 10` after
construction (angle still the default 70°, whose recompute divisor is
`cos(π/9) > 1/2`). -/
theorem flowValve_C9_witness :
    Reachable (setD 10 FlowValve.init) ∧
      Real.cos (Real.pi / 2 - (setD 10 FlowValve.init).theta) ≠ 0 ∧
      (setD 10 FlowValve.init).P =
        (setD 10 FlowValve.init).D /
          Real.cos (Real.pi / 2 - (setD 10 FlowValve.init).theta) := by
  have hreach : Reachable (setD 10 FlowValve.init) :=
    Reachable.step Reachable.init (Step.d 10 FlowValve.init)
  have hcos : Real.cos (Real.pi / 2 - (setD 10 FlowValve.init).theta) ≠ 0 := by
    show Real.cos (Real.pi / 2 - defaultTheta) ≠ 0
    rw [pi_div_two_sub_defaultTheta]
    exact ne_of_gt cos_pi_div_nine_pos
  exact ⟨hreach, hcos, flowValve_C9_invariant hreach hcos⟩

/-- C10: for each of the five input properties `H`, `RH`, `L`, `theta`, `D`,
assigning any real value through the setter and then reading the same
property returns exactly that value: the setters store the raw value with
no validation, clamping or normalization (in particular `theta` is stored
as given, with no modulo-2π reduction). -/
theorem flowValve_C10_raw_setters (v : FlowValve) (x : ℝ) :
    (setH x v).H = x ∧ (setRH x v).RH = x ∧ (setL x v).L = x ∧
      (setTheta x v).theta = x ∧ (setD x v).D = x :=
  ⟨rfl, rfl, rfl, rfl, rfl⟩

/-- C2 (code bug): evaluating the code at the failing input.  On a fresh
`FlowValve`, assigning `D := 20` through the setter and reading
`wallThickness` returns the stale `4` (computed at construction from the
default `D = 40`), not the claimed `mainDiameter / 10 = 2`: the `D` setter
only calls `calculate_P`, never `calculate_WT`. -/
theorem flowValve_C2_wallThickness_stale :
    (setD 20 FlowValve.init).WT = 4 ∧ (setD 20 FlowValve.init).D / 10 = 2 ∧
      (setD 20 FlowValve.init).WT ≠ (setD 20 FlowValve.init).D / 10 := by
  refine ⟨?_, ?_, ?_⟩
  · show defaultD / 2 - (defaultD / 2 - defaultD / 10) = 4
    norm_num [defaultD]
  · show (20 : ℝ) / 10 = 2
    norm_num
  · show defaultD / 2 - (defaultD / 2 - defaultD / 10) ≠ (20 : ℝ) / 10
    norm_num [defaultD]

/-- C3 (code bug): evaluating the code at the failing input.  Assigning
`D := 80` through the setter leaves `wallThickness` stale at `4` while the
current `mainDiameter / 10` is `8`: the `D` setter recomputes only the
transducer distance, so the reader `WT` is stale relative to the current
`mainDiameter`. -/
theorem flowValve_C3_recompute_missing :
    (setD 80 FlowValve.init).WT = 4 ∧ (setD 80 FlowValve.init).D / 10 = 8 ∧
      (setD 80 FlowValve.init).WT ≠ (setD 80 FlowValve.init).D / 10 := by
  refine ⟨?_, ?_, ?_⟩
  · show defaultD / 2 - (defaultD / 2 - defaultD / 10) = 4
    norm_num [defaultD]
  · show (80 : ℝ) / 10 = 8
    norm_num
  · show defaultD / 2 - (defaultD / 2 - defaultD / 10) ≠ (80 : ℝ) / 10
    norm_num [defaultD]

/-- C4 counterexample: setting `theta := π/2` on a fresh `FlowValve` is not
rejected and signals nothing — the recompute divisor `cos(π/2 − π/2)` is
`1` (not within any small epsilon of zero), the setter stores the mutation,
and `P` changes from its previous value to the finite `40`. -/
theorem flowValve_C4_counterexample :
    Real.cos (Real.pi / 2 - (setTheta (Real.pi / 2) FlowValve.init).theta) = 1 ∧
      (setTheta (Real.pi / 2) FlowValve.init).P = 40 ∧
      (setTheta (Real.pi / 2) FlowValve.init).P ≠ FlowValve.init.P := by
  have hzero : Real.pi / 2 - Real.pi / 2 = (0 : ℝ) := by ring
  have h1 : Real.cos (Real.pi / 2 - (setTheta (Real.pi / 2) FlowValve.init).theta) = 1 := by
    show Real.cos (Real.pi / 2 - Real.pi / 2) = 1
    rw [hzero, Real.cos_zero]
  have h2 : (setTheta (Real.pi / 2) FlowValve.init).P = 40 := by
    show (40 : ℝ) / Real.cos (Real.pi / 2 - Real.pi / 2) = 40
    rw [hzero, Real.cos_zero, div_one]
  refine ⟨h1, h2, ?_⟩
  rw [h2, init_P_eq]
  exact ne_of_lt forty_lt_forty_div_cos

/-- C4 amended: the `theta` setter performs no validation and the code
defines no `DegenerateAngleError`; at `theta = π/2` the recompute divisor
`cos(π/2 − θ)` equals `1`, so the setter stores the well-defined finite
value `P = D`.  The formula's real degeneracy is at `θ = 0` (and `θ ≡ 0
(mod π)`), where the divisor `cos(π/2 − θ)` vanishes. -/
theorem flowValve_C4_amended (v : FlowValve) :
    (setTheta (Real.pi / 2) v).P = v.D ∧
      Real.cos (Real.pi / 2 - (setTheta (Real.pi / 2) v).theta) = 1 ∧
      Real.cos (Real.pi / 2 - (setTheta 0 v).theta) = 0 := by
  have hzero : Real.pi / 2 - Real.pi / 2 = (0 : ℝ) := by ring
  refine ⟨?_, ?_, ?_⟩
  · show v.D / Real.cos (Real.pi / 2 - Real.pi / 2) = v.D
    rw [hzero, Real.cos_zero, div_one]
  · show Real.cos (Real.pi / 2 - Real.pi / 2) = 1
    rw [hzero, Real.cos_zero]
  · show Real.cos (Real.pi / 2 - 0) = 0
    rw [sub_zero, Real.cos_pi_div_two]

/-- C5 counterexample: in the scenario `D := 40`, then `theta := 70°`, then
`theta := 90°` on a fresh `FlowValve`, the third setter call is accepted,
and the stored transducer distance changes to `40`, differing from the
value it held after the 70° write — it is not left unchanged and no error
state arises. -/
theorem flowValve_C5_counterexample :
    scenarioV3.P = 40 ∧ scenarioV3.P ≠ scenarioV2.P := by
  refine ⟨scenarioV3_P_eq, ?_⟩
  rw [scenarioV3_P_eq, scenarioV2_P_eq]
  exact ne_of_lt forty_lt_forty_div_cos

/-- C5 amended: the third setter call is accepted and applied in full — the
state after `D := 40`, `theta := 70°`, `theta := 90°` has `theta = π/2`,
`D = 40`, and `P` recomputed to `40 / cos(π/2 − π/2) = 40`; no rejection,
no error state and no partial update occur. -/
theorem flowValve_C5_amended :
    scenarioV3.theta = Real.pi / 2 ∧ scenarioV3.D = 40 ∧ scenarioV3.P = 40 := by
  refine ⟨?_, rfl, scenarioV3_P_eq⟩
  show radians 90 = Real.pi / 2
  exact radians_ninety

/-- C6 counterexample: setting `mainDiameter := 0` (or a negative value) on
a fresh `FlowValve` is not rejected — the setter stores the value (changing
`D` from its previous `40`), and setting `holeCount := 0` likewise stores
`0`.  No `InvalidDimensionError` exists in the code. -/
theorem flowValve_C6_counterexample :
    (setD 0 FlowValve.init).D = 0 ∧ (setD 0 FlowValve.init).D ≠ FlowValve.init.D ∧
      (setD (-5) FlowValve.init).D = -5 ∧ (setH 0 FlowValve.init).H = 0 := by
  refine ⟨rfl, ?_, rfl, rfl⟩
  show (0 : ℝ) ≠ defaultD
  norm_num [defaultD]

/-- C6 amended: the setters perform no validation: any real value assigned
to `mainDiameter` (including `0` and negatives) is stored as given, with
`P` recomputed (`0 / cos(π/2 − θ) = 0` in the real model when `D = 0`), and
`holeCount := 0` is stored; nothing is rejected at the setter boundary. -/
theorem flowValve_C6_amended (v : FlowValve) (x : ℝ) :
    (setD x v).D = x ∧ (setD 0 v).P = 0 ∧ (setH 0 v).H = 0 := by
  refine ⟨rfl, ?_, rfl⟩
  show (0 : ℝ) / Real.cos (Real.pi / 2 - v.theta) = 0
  exact zero_div _

/-- C7 counterexample: with the default parameters the transducer distance
`40 / cos(π/2 − radians 70) = 40 / cos(π/9) ≈ 42.5671` rounds to `42.57`
at 2 decimal places, not to the claimed `42.56`. -/
theorem flowValve_C7_counterexample :
    pythonRound FlowValve.init.P 2 = 4257 / 100 ∧
      pythonRound FlowValve.init.P 2 ≠ 4256 / 100 := by
  refine ⟨pythonRound_initP, ?_⟩
  rw [pythonRound_initP]
  norm_num

/-- C7 amended: a `FlowValve` constructed with the default parameters
(`H = 6`, `RH = 3`, `θ = 70°`, `D = 40`, `L = 100`) yields a transducer
distance of exactly `40 / cos(π/2 − radians 70)`, which rounds to `42.57`
(not `42.56`) at 2 decimal places, and a wall thickness of `4.0`. -/
theorem flowValve_C7_defaults :
    FlowValve.init.P = 40 / Real.cos (Real.pi / 2 - radians 70) ∧
      pythonRound FlowValve.init.P 2 = 4257 / 100 ∧ FlowValve.init.WT = 4 := by
  refine ⟨rfl, pythonRound_initP, ?_⟩
  show defaultD / 2 - (defaultD / 2 - defaultD / 10) = 4
  norm_num [defaultD]

/-- C8 counterexample: the execute handler's `WT` field applies
`round(·, 2)` (source line 58), not rounding to 0 decimal places: at wall
thickness `4.25` it displays `4.25` while the claimed 0-decimal rounding
gives `4`. -/
theorem flowValve_C8_counterexample :
    execDisplayWT ⟨6, 3, 0, 40, 100, 17 / 4, 15, 0⟩ = 17 / 4 ∧
      specDisplayWT (FlowValve.WT ⟨6, 3, 0, 40, 100, 17 / 4, 15, 0⟩) = 4 ∧
      execDisplayWT ⟨6, 3, 0, 40, 100, 17 / 4, 15, 0⟩ ≠
        specDisplayWT (FlowValve.WT ⟨6, 3, 0, 40, 100, 17 / 4, 15, 0⟩) := by
  have h2 : execDisplayWT ⟨6, 3, 0, 40, 100, 17 / 4, 15, 0⟩ = 17 / 4 := by
    show pythonRound (17 / 4 : ℝ) 2 = 17 / 4
    rw [pythonRound,
      pyRoundInt_eq_of_lt_half ((17 / 4 : ℝ) * 10 ^ (2 : ℕ)) 425 (by push_cast; norm_num)
        (by push_cast; norm_num)]
    norm_num
  have h0 : specDisplayWT (FlowValve.WT ⟨6, 3, 0, 40, 100, 17 / 4, 15, 0⟩) = 4 := by
    show pythonRound (17 / 4 : ℝ) 0 = 4
    rw [pythonRound,
      pyRoundInt_eq_of_lt_half ((17 / 4 : ℝ) * 10 ^ (0 : ℕ)) 4 (by push_cast; norm_num)
        (by push_cast; norm_num)]
    norm_num
  refine ⟨h2, h0, ?_⟩
  rw [h2, h0]
  norm_num

/-- C8 amended: the `P` field displays the transducer distance rounded to 2
decimal places as claimed, and on every reachable `FlowValve` the displayed
`WT` value coincides with the wall thickness rounded to 0 decimal places —
but only because the stored wall thickness is always exactly `4.0`; the
execute handler itself rounds `WT` to 2 decimal places, not 0. -/
theorem flowValve_C8_amended {v : FlowValve} (hv : Reachable v) :
    execDisplayP v = pythonRound v.P 2 ∧ execDisplayWT v = specDisplayWT v.WT := by
  refine ⟨rfl, ?_⟩
  have hWT : v.WT = 4 := (reachable_inv hv).2.1
  rw [execDisplayWT, specDisplayWT, hWT, pythonRound, pythonRound,
    pyRoundInt_eq_of_lt_half ((4 : ℝ) * 10 ^ (2 : ℕ)) 400 (by push_cast; norm_num)
      (by push_cast; norm_num),
    pyRoundInt_eq_of_lt_half ((4 : ℝ) * 10 ^ (0 : ℕ)) 4 (by push_cast; norm_num)
      (by push_cast; norm_num)]
  norm_num

/-- Witness for C8 at the freshly constructed `FlowValve`, where the
displayed wall-thickness value is `4` under both roundings. -/
theorem flowValve_C8_witness :
    Reachable FlowValve.init ∧
      (execDisplayP FlowValve.init = pythonRound FlowValve.init.P 2 ∧
        execDisplayWT FlowValve.init = specDisplayWT FlowValve.init.WT) :=
  ⟨Reachable.init, flowValve_C8_amended Reachable.init⟩
